import Mathlib

/-
Shallow embedding of the str-concat crate.

A borrowed region of memory (a `&str`, `&[T]` or any borrowed value) is
modelled by its start address and its size in bytes, both natural numbers.
Addresses of live allocations cannot overflow `usize`, so `Nat` arithmetic
is faithful to the source's `usize` arithmetic here.

`src/proof.rs` (the file under verification) defines `AllocationProof` with
fields `begin` and `end`, the private predicate `within`, and the four merge
methods `concat_slice`, `concat`, `concat_slice_unordered`, `concat_unordered`,
each of which first checks `within` for both operands and then delegates to
the crate-root functions `super::concat_slice` / `super::concat` /
`super::concat_slice_unordered` / `super::concat_unordered`.  Those crate-root
functions live in lib.rs, which is not part of the provided sources; they are
modelled from the spec below.
-/

/-- A borrowed memory region: absolute start address and size in bytes. -/
structure Region where
  addr : Nat
  len : Nat
deriving DecidableEq, Repr

/-- One-past-the-end address of a region. -/
def Region.endAddr (r : Region) : Nat := r.addr + r.len

/-- The crate's error type.  Modelled from the spec: single error kind,
`NotAdjacent`. -/
inductive Error where
  | NotAdjacent
deriving DecidableEq, Repr

/-- Modelled from the spec: the genuinely unsafe span construction (step (3)
of the shared merge algorithm; `slice::from_raw_parts` in the crate root,
which is not under the provided sources).  Given the earlier region and the
later region, it produces the single region spanning from the earlier
region's start to the later region's end, with no copy. -/
def unsafeMergeSpan (a b : Region) : Region := ⟨a.addr, a.len + b.len⟩

/-- Modelled from the spec: the crate-root ordered slice merge
`str_concat::concat_slice` (lib.rs, not under the provided sources).
Checks `a.end_address == b.start_address` exactly; on success constructs the
merged span, otherwise fails with the adjacency error. -/
def str_concat.concat_slice (a b : Region) : Except Error Region :=
  if a.endAddr = b.addr then
    Except.ok (unsafeMergeSpan a b)
  else
    Except.error Error.NotAdjacent

/-- Modelled from the spec: the crate-root ordered string merge
`str_concat::concat` (lib.rs, not under the provided sources).  Identical
contract to the ordered slice merge, operating on textual regions. -/
def str_concat.concat (a b : Region) : Except Error Region :=
  if a.endAddr = b.addr then
    Except.ok (unsafeMergeSpan a b)
  else
    Except.error Error.NotAdjacent

/-- Modelled from the spec: the crate-root unordered slice merge
`str_concat::concat_slice_unordered` (lib.rs, not under the provided
sources).  Accepts the two regions in either order: checks
`a.end_address == b.start_address` or `b.end_address == a.start_address`,
and merges from the earlier region's start to the later region's end. -/
def str_concat.concat_slice_unordered (a b : Region) : Except Error Region :=
  if a.endAddr = b.addr then
    Except.ok (unsafeMergeSpan a b)
  else if b.endAddr = a.addr then
    Except.ok (unsafeMergeSpan b a)
  else
    Except.error Error.NotAdjacent

/-- Modelled from the spec: the crate-root unordered string merge
`str_concat::concat_unordered` (lib.rs, not under the provided sources).
Same relaxation as the unordered slice merge, applied to text regions. -/
def str_concat.concat_unordered (a b : Region) : Except Error Region :=
  if a.endAddr = b.addr then
    Except.ok (unsafeMergeSpan a b)
  else if b.endAddr = a.addr then
    Except.ok (unsafeMergeSpan b a)
  else
    Except.error Error.NotAdjacent

/-- Proof of a single, contiguous allocation for a certain lifetime
(src/proof.rs).  The `PhantomData` lifetime marker has no runtime content
and is omitted. -/
structure AllocationProof where
  begin : Nat
  «end» : Nat
deriving DecidableEq, Repr

/-- `AllocationProof::new` (src/proof.rs): construct an allocation proof from
a non-mutable value.  `begin` is the value's address, `end` is
`begin + mem::size_of_val(obj)`. -/
def AllocationProof.new (obj : Region) : AllocationProof :=
  { begin := obj.addr, «end» := obj.addr + obj.len }

/-- `AllocationProof::new_mut` (src/proof.rs): construct an allocation proof
from a mutable value; the value is returned in full alongside the proof. -/
def AllocationProof.new_mut (obj : Region) : AllocationProof × Region :=
  ({ begin := obj.addr, «end» := obj.addr + obj.len }, obj)

/-- `AllocationProof::within` (src/proof.rs): the private containment test.
`self.begin <= a && a + size_of_val(a) <= self.end`. -/
def AllocationProof.within (self : AllocationProof) (a : Region) : Bool :=
  let a_len := a.len
  let a := a.addr
  let a_end := a + a_len
  decide (self.begin ≤ a) && decide (a_end ≤ self.«end»)

/-- `AllocationProof::concat_slice` (src/proof.rs): check both regions are
within the allocation, then delegate to the crate-root ordered slice merge. -/
def AllocationProof.concat_slice (self : AllocationProof) (a b : Region) :
    Except Error Region :=
  if !(self.within a) || !(self.within b) then
    Except.error Error.NotAdjacent
  else
    str_concat.concat_slice a b

/-- `AllocationProof::concat` (src/proof.rs): check both regions are within
the allocation, then delegate to the crate-root ordered string merge. -/
def AllocationProof.concat (self : AllocationProof) (a b : Region) :
    Except Error Region :=
  if !(self.within a) || !(self.within b) then
    Except.error Error.NotAdjacent
  else
    str_concat.concat a b

/-- `AllocationProof::concat_slice_unordered` (src/proof.rs): check both
regions are within the allocation, then delegate to the crate-root unordered
slice merge. -/
def AllocationProof.concat_slice_unordered (self : AllocationProof)
    (a b : Region) : Except Error Region :=
  if !(self.within a) || !(self.within b) then
    Except.error Error.NotAdjacent
  else
    str_concat.concat_slice_unordered a b

/-- `AllocationProof::concat_unordered` (src/proof.rs): check both regions
are within the allocation, then delegate to the crate-root unordered string
merge. -/
def AllocationProof.concat_unordered (self : AllocationProof)
    (a b : Region) : Except Error Region :=
  if !(self.within a) || !(self.within b) then
    Except.error Error.NotAdjacent
  else
    str_concat.concat_unordered a b

/-- A byte-addressed memory, one character per unit, used to read the textual
content of a region for the concrete string scenarios. -/
def Mem : Type := Nat → Char

/-- The text a string region denotes in a memory: the characters at addresses
`r.addr, r.addr + 1, …, r.addr + r.len - 1`. -/
def readStr (m : Mem) (r : Region) : List Char :=
  (List.range r.len).map fun i => m (r.addr + i)

/-- A memory holding the test string `"0123456789"` at base address 100. -/
def demoMem : Mem := fun i => (String.toList "0123456789").getD (i - 100) '?'

/-- A memory holding the test string `"0123"` at base address 100. -/
def demoMem4 : Mem := fun i => (String.toList "0123").getD (i - 100) '?'

/-- Whether a merge result is a success. -/
def exceptIsOk : Except Error Region → Bool
  | Except.ok _ => true
  | Except.error _ => false

/-- The crate-root ordered slice merge, instrumented: alongside the result,
counts how many times the unsafe span construction is invoked on the path
taken.  Same structure as `str_concat.concat_slice`. -/
def str_concat.concat_sliceCounted (a b : Region) : Except Error Region × Nat :=
  if a.endAddr = b.addr then
    (Except.ok (unsafeMergeSpan a b), 1)
  else
    (Except.error Error.NotAdjacent, 0)

/-- The crate-root ordered string merge, instrumented with the number of
unsafe span constructions on the path taken. -/
def str_concat.concatCounted (a b : Region) : Except Error Region × Nat :=
  if a.endAddr = b.addr then
    (Except.ok (unsafeMergeSpan a b), 1)
  else
    (Except.error Error.NotAdjacent, 0)

/-- The crate-root unordered slice merge, instrumented with the number of
unsafe span constructions on the path taken. -/
def str_concat.concat_slice_unorderedCounted (a b : Region) :
    Except Error Region × Nat :=
  if a.endAddr = b.addr then
    (Except.ok (unsafeMergeSpan a b), 1)
  else if b.endAddr = a.addr then
    (Except.ok (unsafeMergeSpan b a), 1)
  else
    (Except.error Error.NotAdjacent, 0)

/-- The crate-root unordered string merge, instrumented with the number of
unsafe span constructions on the path taken. -/
def str_concat.concat_unorderedCounted (a b : Region) :
    Except Error Region × Nat :=
  if a.endAddr = b.addr then
    (Except.ok (unsafeMergeSpan a b), 1)
  else if b.endAddr = a.addr then
    (Except.ok (unsafeMergeSpan b a), 1)
  else
    (Except.error Error.NotAdjacent, 0)

/-- `AllocationProof::concat_slice`, instrumented with the number of unsafe
span constructions on the path taken.  Same structure as the method in
src/proof.rs: the containment gate first, then the crate-root merge. -/
def AllocationProof.concat_sliceCounted (self : AllocationProof)
    (a b : Region) : Except Error Region × Nat :=
  if !(self.within a) || !(self.within b) then
    (Except.error Error.NotAdjacent, 0)
  else
    str_concat.concat_sliceCounted a b

/-- `AllocationProof::concat`, instrumented with the number of unsafe span
constructions on the path taken. -/
def AllocationProof.concatCounted (self : AllocationProof)
    (a b : Region) : Except Error Region × Nat :=
  if !(self.within a) || !(self.within b) then
    (Except.error Error.NotAdjacent, 0)
  else
    str_concat.concatCounted a b

/-- `AllocationProof::concat_slice_unordered`, instrumented with the number
of unsafe span constructions on the path taken. -/
def AllocationProof.concat_slice_unorderedCounted (self : AllocationProof)
    (a b : Region) : Except Error Region × Nat :=
  if !(self.within a) || !(self.within b) then
    (Except.error Error.NotAdjacent, 0)
  else
    str_concat.concat_slice_unorderedCounted a b

/-- `AllocationProof::concat_unordered`, instrumented with the number of
unsafe span constructions on the path taken. -/
def AllocationProof.concat_unorderedCounted (self : AllocationProof)
    (a b : Region) : Except Error Region × Nat :=
  if !(self.within a) || !(self.within b) then
    (Except.error Error.NotAdjacent, 0)
  else
    str_concat.concat_unorderedCounted a b

/-- Unfolding of the containment test into its arithmetic meaning (shared
helper). -/
theorem AllocationProof.within_iff (p : AllocationProof) (a : Region) :
    p.within a = true ↔ (p.begin ≤ a.addr ∧ a.addr + a.len ≤ p.«end») := by
  simp [AllocationProof.within]

/-- C4: for every proof (satisfying the documented invariant `begin ≤ end`)
and every candidate region, `within` returns true iff
`begin ≤ candidate_start ∧ candidate_start + candidate_len ≤ end`; in
particular a zero-length region located exactly at `begin` or exactly at
`end` is within bounds. -/
theorem C4_within_def (p : AllocationProof) (a : Region)
    (hinv : p.begin ≤ p.«end») :
    (p.within a = true ↔ (p.begin ≤ a.addr ∧ a.addr + a.len ≤ p.«end»)) ∧
    p.within ⟨p.begin, 0⟩ = true ∧ p.within ⟨p.«end», 0⟩ = true := by
  refine ⟨?_, ?_, ?_⟩ <;> simp [AllocationProof.within] <;> omega

/-- Witness for C4 at the proof of a 10-byte allocation at address 100 and
the candidate region of length 4 at address 103. -/
theorem C4_within_def_witness :
    ((AllocationProof.new ⟨100, 10⟩).within ⟨103, 4⟩ = true ↔
      ((AllocationProof.new ⟨100, 10⟩).begin ≤ 103 ∧
        103 + 4 ≤ (AllocationProof.new ⟨100, 10⟩).«end»)) ∧
    (AllocationProof.new ⟨100, 10⟩).within
      ⟨(AllocationProof.new ⟨100, 10⟩).begin, 0⟩ = true ∧
    (AllocationProof.new ⟨100, 10⟩).within
      ⟨(AllocationProof.new ⟨100, 10⟩).«end», 0⟩ = true :=
  C4_within_def (AllocationProof.new ⟨100, 10⟩) ⟨103, 4⟩ (by decide)

/-- C8: `new` computes `begin` as the value's address and `end` as
`begin + size_of(value)`, and both constructors establish `begin ≤ end`.
The embedding is purely functional, mirroring the source: no operation
writes to the proof's fields, so the invariant is preserved for the proof's
whole life. -/
theorem C8_constructor_bounds (obj : Region) :
    (AllocationProof.new obj).begin = obj.addr ∧
    (AllocationProof.new obj).«end» = obj.addr + obj.len ∧
    (AllocationProof.new obj).begin ≤ (AllocationProof.new obj).«end» ∧
    (AllocationProof.new_mut obj).1.begin ≤ (AllocationProof.new_mut obj).1.«end» := by
  refine ⟨rfl, rfl, ?_, ?_⟩ <;>
    simp [AllocationProof.new, AllocationProof.new_mut]

/-- C9: `new_mut` computes exactly the same bounds as `new`, and hands the
borrowed value back unchanged as the second component of the pair. -/
theorem C9_new_mut_equiv (obj : Region) :
    (AllocationProof.new_mut obj).1 = AllocationProof.new obj ∧
    (AllocationProof.new_mut obj).2 = obj :=
  ⟨rfl, rfl⟩

/-- C10: every genuine sub-region of the witnessed value (any start and
length lying inside it, including the whole value and zero-length regions at
its boundaries) passes the containment test of the proof built by `new`. -/
theorem C10_subregion_within (obj r : Region)
    (h1 : obj.addr ≤ r.addr) (h2 : r.addr + r.len ≤ obj.addr + obj.len) :
    (AllocationProof.new obj).within r = true := by
  simp [AllocationProof.new, AllocationProof.within]
  omega

/-- Witness for C10: the zero-length suffix of a 10-byte allocation at
address 100 (the boundary case located exactly at `end`). -/
theorem C10_subregion_within_witness :
    (AllocationProof.new ⟨100, 10⟩).within ⟨110, 0⟩ = true :=
  C10_subregion_within ⟨100, 10⟩ ⟨110, 0⟩ (by decide) (by decide)

/-- C5: if either operand's region fails the containment test against the
proof's witnessed range (any out-of-bounds region, including one from a
different, even numerically adjacent, allocation), all four merge operations
return `Err(NotAdjacent)`. -/
theorem C5_out_of_bounds_reject (p : AllocationProof) (a b : Region)
    (h : p.within a = false ∨ p.within b = false) :
    p.concat a b = Except.error Error.NotAdjacent ∧
    p.concat_slice a b = Except.error Error.NotAdjacent ∧
    p.concat_unordered a b = Except.error Error.NotAdjacent ∧
    p.concat_slice_unordered a b = Except.error Error.NotAdjacent := by
  have hgate : (!(p.within a) || !(p.within b)) = true := by
    rcases h with h | h <;> simp [h]
  refine ⟨?_, ?_, ?_, ?_⟩ <;>
    simp [AllocationProof.concat, AllocationProof.concat_slice,
      AllocationProof.concat_unordered, AllocationProof.concat_slice_unordered,
      hgate]

/-- Witness for C5: a proof over the 8-byte allocation at address 100
rejects a merge whose first operand lies in a foreign allocation at
address 200 that is numerically adjacent (it starts where the witnessed
range ends would not even matter: 200 is outside [100, 108)). -/
theorem C5_out_of_bounds_reject_witness :
    (AllocationProof.new ⟨100, 8⟩).concat ⟨200, 4⟩ ⟨100, 4⟩ =
      Except.error Error.NotAdjacent ∧
    (AllocationProof.new ⟨100, 8⟩).concat_slice ⟨200, 4⟩ ⟨100, 4⟩ =
      Except.error Error.NotAdjacent ∧
    (AllocationProof.new ⟨100, 8⟩).concat_unordered ⟨200, 4⟩ ⟨100, 4⟩ =
      Except.error Error.NotAdjacent ∧
    (AllocationProof.new ⟨100, 8⟩).concat_slice_unordered ⟨200, 4⟩ ⟨100, 4⟩ =
      Except.error Error.NotAdjacent :=
  C5_out_of_bounds_reject (AllocationProof.new ⟨100, 8⟩) ⟨200, 4⟩ ⟨100, 4⟩
    (Or.inl (by rfl))

/-- C6: two regions inside the witnessed range but separated by a gap of at
least one unit (in either direction) are rejected by all four merge
variants with `Err(NotAdjacent)`. -/
theorem C6_gap_reject (p : AllocationProof) (a b : Region)
    (ha : p.within a = true) (hb : p.within b = true)
    (hgap : a.endAddr < b.addr ∨ b.endAddr < a.addr) :
    p.concat a b = Except.error Error.NotAdjacent ∧
    p.concat_slice a b = Except.error Error.NotAdjacent ∧
    p.concat_unordered a b = Except.error Error.NotAdjacent ∧
    p.concat_slice_unordered a b = Except.error Error.NotAdjacent := by
  have h1 : ¬ (a.endAddr = b.addr) := by
    simp only [Region.endAddr] at hgap ⊢; omega
  have h2 : ¬ (b.endAddr = a.addr) := by
    simp only [Region.endAddr] at hgap ⊢; omega
  have hgate : (!(p.within a) || !(p.within b)) = false := by simp [ha, hb]
  refine ⟨?_, ?_, ?_, ?_⟩ <;>
    simp [AllocationProof.concat, AllocationProof.concat_slice,
      AllocationProof.concat_unordered, AllocationProof.concat_slice_unordered,
      str_concat.concat, str_concat.concat_slice,
      str_concat.concat_unordered, str_concat.concat_slice_unordered,
      hgate, h1, h2]

/-- Witness for C6: within the 10-byte allocation at address 100, the
regions [100, 102) and [105, 107) leave a gap of three bytes; every merge
variant rejects them. -/
theorem C6_gap_reject_witness :
    (AllocationProof.new ⟨100, 10⟩).concat ⟨100, 2⟩ ⟨105, 2⟩ =
      Except.error Error.NotAdjacent ∧
    (AllocationProof.new ⟨100, 10⟩).concat_slice ⟨100, 2⟩ ⟨105, 2⟩ =
      Except.error Error.NotAdjacent ∧
    (AllocationProof.new ⟨100, 10⟩).concat_unordered ⟨100, 2⟩ ⟨105, 2⟩ =
      Except.error Error.NotAdjacent ∧
    (AllocationProof.new ⟨100, 10⟩).concat_slice_unordered ⟨100, 2⟩ ⟨105, 2⟩ =
      Except.error Error.NotAdjacent :=
  C6_gap_reject (AllocationProof.new ⟨100, 10⟩) ⟨100, 2⟩ ⟨105, 2⟩
    (by rfl) (by rfl) (Or.inl (by decide))

/-- C1 counterexample: for the empty allocation at address 0, split into the
two (necessarily empty) contiguous sub-regions `a = b = [0, 0)`, both
operands pass the containment test and `a` ends exactly where `b` starts,
yet the ordered merge in the wrong order returns `Ok` (the empty span), not
`Err(NotAdjacent)` as the claim states for every split. -/
theorem C1_counterexample :
    (AllocationProof.new ⟨0, 0⟩).within ⟨0, 0⟩ = true ∧
    Region.endAddr ⟨0, 0⟩ = Region.addr ⟨0, 0⟩ ∧
    (AllocationProof.new ⟨0, 0⟩).concat ⟨0, 0⟩ ⟨0, 0⟩ = Except.ok ⟨0, 0⟩ ∧
    (AllocationProof.new ⟨0, 0⟩).concat ⟨0, 0⟩ ⟨0, 0⟩ ≠
      Except.error Error.NotAdjacent := by
  refine ⟨rfl, rfl, rfl, ?_⟩
  intro h
  have h2 : (Except.ok ⟨0, 0⟩ : Except Error Region) =
      Except.error Error.NotAdjacent := h
  exact Except.noConfusion h2

/-- C1 (amended): for every split of an allocation into two contiguous
sub-regions `a` then `b` inside the proof's witnessed range, with `a` and
`b` not both empty, the ordered merges `concat` and `concat_slice` of
`(a, b)` return `Ok` of the span from `a`'s start to `b`'s end, and of
`(b, a)` (wrong order) return `Err(NotAdjacent)`; concretely, for the text
`"0123456789"` (held at address 100 by `demoMem`) and its proof,
`concat(text[0..5], text[5..7])` is `Ok` of the span reading `"0123456"`
and `concat(text[5..7], text[0..5])` is `Err(NotAdjacent)`. -/
theorem C1_ordered_merge (p : AllocationProof) (a b : Region)
    (ha : p.within a = true) (hb : p.within b = true)
    (hadj : a.endAddr = b.addr) (hne : 0 < a.len + b.len) :
    (p.concat a b = Except.ok ⟨a.addr, a.len + b.len⟩ ∧
     p.concat_slice a b = Except.ok ⟨a.addr, a.len + b.len⟩ ∧
     p.concat b a = Except.error Error.NotAdjacent ∧
     p.concat_slice b a = Except.error Error.NotAdjacent) ∧
    ((AllocationProof.new ⟨100, 10⟩).concat ⟨100, 5⟩ ⟨105, 2⟩ =
       Except.ok ⟨100, 7⟩ ∧
     readStr demoMem ⟨100, 7⟩ = String.toList "0123456" ∧
     (AllocationProof.new ⟨100, 10⟩).concat ⟨105, 2⟩ ⟨100, 5⟩ =
       Except.error Error.NotAdjacent) := by
  have hgate : (!(p.within a) || !(p.within b)) = false := by simp [ha, hb]
  have hgate' : (!(p.within b) || !(p.within a)) = false := by simp [ha, hb]
  have hback : ¬ (b.endAddr = a.addr) := by
    simp only [Region.endAddr] at hadj ⊢; omega
  refine ⟨⟨?_, ?_, ?_, ?_⟩, rfl, rfl, rfl⟩ <;>
    simp [AllocationProof.concat, AllocationProof.concat_slice,
      str_concat.concat, str_concat.concat_slice, unsafeMergeSpan,
      hgate, hgate', hadj, hback]

/-- Witness for C1 (amended) at the `"0123456789"` scenario: the split of
the 10-byte allocation at address 100 into [100, 105) and [105, 107). -/
theorem C1_ordered_merge_witness :
    ((AllocationProof.new ⟨100, 10⟩).concat ⟨100, 5⟩ ⟨105, 2⟩ =
       Except.ok ⟨100, 7⟩ ∧
     (AllocationProof.new ⟨100, 10⟩).concat_slice ⟨100, 5⟩ ⟨105, 2⟩ =
       Except.ok ⟨100, 7⟩ ∧
     (AllocationProof.new ⟨100, 10⟩).concat ⟨105, 2⟩ ⟨100, 5⟩ =
       Except.error Error.NotAdjacent ∧
     (AllocationProof.new ⟨100, 10⟩).concat_slice ⟨105, 2⟩ ⟨100, 5⟩ =
       Except.error Error.NotAdjacent) ∧
    ((AllocationProof.new ⟨100, 10⟩).concat ⟨100, 5⟩ ⟨105, 2⟩ =
       Except.ok ⟨100, 7⟩ ∧
     readStr demoMem ⟨100, 7⟩ = String.toList "0123456" ∧
     (AllocationProof.new ⟨100, 10⟩).concat ⟨105, 2⟩ ⟨100, 5⟩ =
       Except.error Error.NotAdjacent) :=
  C1_ordered_merge (AllocationProof.new ⟨100, 10⟩) ⟨100, 5⟩ ⟨105, 2⟩
    (by rfl) (by rfl) (by decide) (by decide)

/-- C3: for every split of an allocation into contiguous sub-regions `a`
then `b` inside the proof's witnessed range, the unordered merges accept
both operand orders and return `Ok` of the identical combined span from
`a`'s start to `b`'s end, for the string and the slice variant alike. -/
theorem C3_unordered_symmetry (p : AllocationProof) (a b : Region)
    (ha : p.within a = true) (hb : p.within b = true)
    (hadj : a.endAddr = b.addr) :
    p.concat_unordered a b = Except.ok ⟨a.addr, a.len + b.len⟩ ∧
    p.concat_unordered b a = Except.ok ⟨a.addr, a.len + b.len⟩ ∧
    p.concat_slice_unordered a b = Except.ok ⟨a.addr, a.len + b.len⟩ ∧
    p.concat_slice_unordered b a = Except.ok ⟨a.addr, a.len + b.len⟩ := by
  have hgate : (!(p.within a) || !(p.within b)) = false := by simp [ha, hb]
  have hgate' : (!(p.within b) || !(p.within a)) = false := by simp [ha, hb]
  simp only [AllocationProof.concat_unordered,
    AllocationProof.concat_slice_unordered, hgate, hgate',
    Bool.false_eq_true, if_false, str_concat.concat_unordered,
    str_concat.concat_slice_unordered, unsafeMergeSpan, Region.endAddr]
  simp only [Region.endAddr] at hadj
  refine ⟨?_, ?_, ?_, ?_⟩
  · rw [if_pos hadj]
  · by_cases hba : b.addr + b.len = a.addr
    · rw [if_pos hba]
      simp only [Except.ok.injEq, Region.mk.injEq]
      omega
    · rw [if_neg hba, if_pos hadj]
  · rw [if_pos hadj]
  · by_cases hba : b.addr + b.len = a.addr
    · rw [if_pos hba]
      simp only [Except.ok.injEq, Region.mk.injEq]
      omega
    · rw [if_neg hba, if_pos hadj]

/-- Witness for C3 at the `"0123456789"` scenario: both operand orders of
the unordered merges on the split [100, 105) / [105, 107) yield the span
[100, 107). -/
theorem C3_unordered_symmetry_witness :
    (AllocationProof.new ⟨100, 10⟩).concat_unordered ⟨100, 5⟩ ⟨105, 2⟩ =
      Except.ok ⟨100, 7⟩ ∧
    (AllocationProof.new ⟨100, 10⟩).concat_unordered ⟨105, 2⟩ ⟨100, 5⟩ =
      Except.ok ⟨100, 7⟩ ∧
    (AllocationProof.new ⟨100, 10⟩).concat_slice_unordered ⟨100, 5⟩ ⟨105, 2⟩ =
      Except.ok ⟨100, 7⟩ ∧
    (AllocationProof.new ⟨100, 10⟩).concat_slice_unordered ⟨105, 2⟩ ⟨100, 5⟩ =
      Except.ok ⟨100, 7⟩ :=
  C3_unordered_symmetry (AllocationProof.new ⟨100, 10⟩) ⟨100, 5⟩ ⟨105, 2⟩
    (by rfl) (by rfl) (by decide)

/-- C7 counterexample: for the text `"0123"` (a 4-byte region at address
100) and its proof, swapping the operands of the ordered merge with the
zero-length region at the start of `R` yields `Err(NotAdjacent)`, not
`Ok(R)`: the ordered variant is not symmetric in operand order. -/
theorem C7_counterexample :
    (AllocationProof.new ⟨100, 4⟩).within ⟨100, 4⟩ = true ∧
    (AllocationProof.new ⟨100, 4⟩).concat ⟨100, 0⟩ ⟨100, 4⟩ =
      Except.ok ⟨100, 4⟩ ∧
    (AllocationProof.new ⟨100, 4⟩).concat ⟨100, 4⟩ ⟨100, 0⟩ =
      Except.error Error.NotAdjacent ∧
    (AllocationProof.new ⟨100, 4⟩).concat ⟨100, 4⟩ ⟨100, 0⟩ ≠
      Except.ok ⟨100, 4⟩ := by
  refine ⟨rfl, rfl, rfl, ?_⟩
  intro h
  have h2 : (Except.error Error.NotAdjacent : Except Error Region) =
      Except.ok ⟨100, 4⟩ := h
  exact Except.noConfusion h2

/-- C7 (amended): for every region `R` within the proof's witnessed range
and a zero-length region positioned exactly at `R`'s start or end, merging
returns `R` unchanged: in the ordered variant when the operands are given in
address order (the empty region at `R`'s start as first operand, the empty
region at `R`'s end as second operand), and in the unordered variant in both
operand orders; concretely, for `"0123"` (at address 100 in `demoMem4`) and
its proof, `concat(text[0..0], text[0..4])` and `concat(text[0..4],
text[4..4])` both return `Ok` of the span reading `"0123"`. -/
theorem C7_empty_region_identity (p : AllocationProof) (R : Region)
    (hR : p.within R = true) :
    (p.concat ⟨R.addr, 0⟩ R = Except.ok R ∧
     p.concat R ⟨R.endAddr, 0⟩ = Except.ok R ∧
     p.concat_unordered ⟨R.addr, 0⟩ R = Except.ok R ∧
     p.concat_unordered R ⟨R.addr, 0⟩ = Except.ok R ∧
     p.concat_unordered R ⟨R.endAddr, 0⟩ = Except.ok R ∧
     p.concat_unordered ⟨R.endAddr, 0⟩ R = Except.ok R) ∧
    ((AllocationProof.new ⟨100, 4⟩).concat ⟨100, 0⟩ ⟨100, 4⟩ =
       Except.ok ⟨100, 4⟩ ∧
     (AllocationProof.new ⟨100, 4⟩).concat ⟨100, 4⟩ ⟨104, 0⟩ =
       Except.ok ⟨100, 4⟩ ∧
     readStr demoMem4 ⟨100, 4⟩ = String.toList "0123") := by
  obtain ⟨pb, pe⟩ := p
  obtain ⟨ra, rl⟩ := R
  simp only [Region.endAddr]
  simp [AllocationProof.within] at hR
  have hwR : AllocationProof.within ⟨pb, pe⟩ ⟨ra, rl⟩ = true := by
    simp [AllocationProof.within]; omega
  have hw1 : AllocationProof.within ⟨pb, pe⟩ ⟨ra, 0⟩ = true := by
    simp [AllocationProof.within]; omega
  have hw2 : AllocationProof.within ⟨pb, pe⟩ ⟨ra + rl, 0⟩ = true := by
    simp [AllocationProof.within]; omega
  refine ⟨⟨?_, ?_, ?_, ?_, ?_, ?_⟩, rfl, rfl, rfl⟩
  · simp [AllocationProof.concat, hw1, hwR, str_concat.concat,
      unsafeMergeSpan, Region.endAddr]
  · simp [AllocationProof.concat, hw2, hwR, str_concat.concat,
      unsafeMergeSpan, Region.endAddr]
  · simp [AllocationProof.concat_unordered, hw1, hwR,
      str_concat.concat_unordered, unsafeMergeSpan, Region.endAddr]
  · by_cases hrl : rl = 0 <;>
      simp [AllocationProof.concat_unordered, hw1, hwR,
        str_concat.concat_unordered, unsafeMergeSpan, Region.endAddr,
        add_right_eq_self, hrl]
  · simp [AllocationProof.concat_unordered, hw2, hwR,
      str_concat.concat_unordered, unsafeMergeSpan, Region.endAddr]
  · by_cases hrl : rl = 0 <;>
      simp [AllocationProof.concat_unordered, hw1, hw2, hwR,
        str_concat.concat_unordered, unsafeMergeSpan, Region.endAddr,
        add_right_eq_self, hrl]

/-- Witness for C7 (amended) at the `"0123"` scenario: `R` is the whole
4-byte region at address 100. -/
theorem C7_empty_region_identity_witness :
    ((AllocationProof.new ⟨100, 4⟩).concat ⟨100, 0⟩ ⟨100, 4⟩ =
       Except.ok ⟨100, 4⟩ ∧
     (AllocationProof.new ⟨100, 4⟩).concat ⟨100, 4⟩ ⟨104, 0⟩ =
       Except.ok ⟨100, 4⟩ ∧
     (AllocationProof.new ⟨100, 4⟩).concat_unordered ⟨100, 0⟩ ⟨100, 4⟩ =
       Except.ok ⟨100, 4⟩ ∧
     (AllocationProof.new ⟨100, 4⟩).concat_unordered ⟨100, 4⟩ ⟨100, 0⟩ =
       Except.ok ⟨100, 4⟩ ∧
     (AllocationProof.new ⟨100, 4⟩).concat_unordered ⟨100, 4⟩ ⟨104, 0⟩ =
       Except.ok ⟨100, 4⟩ ∧
     (AllocationProof.new ⟨100, 4⟩).concat_unordered ⟨104, 0⟩ ⟨100, 4⟩ =
       Except.ok ⟨100, 4⟩) ∧
    ((AllocationProof.new ⟨100, 4⟩).concat ⟨100, 0⟩ ⟨100, 4⟩ =
       Except.ok ⟨100, 4⟩ ∧
     (AllocationProof.new ⟨100, 4⟩).concat ⟨100, 4⟩ ⟨104, 0⟩ =
       Except.ok ⟨100, 4⟩ ∧
     readStr demoMem4 ⟨100, 4⟩ = String.toList "0123") :=
  C7_empty_region_identity (AllocationProof.new ⟨100, 4⟩) ⟨100, 4⟩ (by rfl)

/-- C2: each of the four merge operations invokes the unsafe span
construction exactly once per successful call and zero times otherwise
(first conjunct triple per operation: the instrumented operation computes
the same result as the real one; its invocation count is 1 exactly on
success), and a call succeeds exactly when both containment checks and then
the exact adjacency check pass — so the unsafe step is unreachable from any
path that has not passed both checks. -/
theorem C2_unsafe_gated (p : AllocationProof) (a b : Region) :
    ((p.concatCounted a b).1 = p.concat a b ∧
     (p.concatCounted a b).2 =
       (if exceptIsOk (p.concat a b) then 1 else 0) ∧
     exceptIsOk (p.concat a b) =
       (p.within a && p.within b && decide (a.endAddr = b.addr))) ∧
    ((p.concat_sliceCounted a b).1 = p.concat_slice a b ∧
     (p.concat_sliceCounted a b).2 =
       (if exceptIsOk (p.concat_slice a b) then 1 else 0) ∧
     exceptIsOk (p.concat_slice a b) =
       (p.within a && p.within b && decide (a.endAddr = b.addr))) ∧
    ((p.concat_unorderedCounted a b).1 = p.concat_unordered a b ∧
     (p.concat_unorderedCounted a b).2 =
       (if exceptIsOk (p.concat_unordered a b) then 1 else 0) ∧
     exceptIsOk (p.concat_unordered a b) =
       (p.within a && p.within b &&
         (decide (a.endAddr = b.addr) || decide (b.endAddr = a.addr)))) ∧
    ((p.concat_slice_unorderedCounted a b).1 = p.concat_slice_unordered a b ∧
     (p.concat_slice_unorderedCounted a b).2 =
       (if exceptIsOk (p.concat_slice_unordered a b) then 1 else 0) ∧
     exceptIsOk (p.concat_slice_unordered a b) =
       (p.within a && p.within b &&
         (decide (a.endAddr = b.addr) || decide (b.endAddr = a.addr)))) := by
  cases hA : p.within a <;> cases hB : p.within b <;>
    by_cases hadj : a.endAddr = b.addr <;>
      by_cases hba : b.endAddr = a.addr <;>
        simp [AllocationProof.concat, AllocationProof.concatCounted,
          AllocationProof.concat_slice, AllocationProof.concat_sliceCounted,
          AllocationProof.concat_unordered,
          AllocationProof.concat_unorderedCounted,
          AllocationProof.concat_slice_unordered,
          AllocationProof.concat_slice_unorderedCounted,
          str_concat.concat, str_concat.concatCounted,
          str_concat.concat_slice, str_concat.concat_sliceCounted,
          str_concat.concat_unordered, str_concat.concat_unorderedCounted,
          str_concat.concat_slice_unordered,
          str_concat.concat_slice_unorderedCounted,
          exceptIsOk, hA, hB, hadj, hba]
